import Mathlib

/-!
Verification of the quiz-agent orchestration service (src/main.py) against its
natural-language specification.

Shallow embedding conventions:
  * Python `HTTPException` is a structure of status code and detail string.
  * Any other (unhandled) Python exception is the single error value
    `PyErr.unhandled`; claims never depend on the message of an unhandled
    exception, only on the fact that it is not an `HTTPException`.
  * Each outbound HTTP call is modelled by an oracle value describing what the
    external service did (raised, or responded with a status, raw body text and
    a parsed-body shape).  The functions of the embedding consume these oracles
    exactly where the Python code consumes `requests` responses.
  * `json.loads` and `json.dumps` from the Python standard library are modelled
    as parameters (`parse : String -> Option JsonVal`, `dumps : JsonVal -> String`);
    no claim depends on the concrete behaviour of either.
  * JSON values are the inductive `JsonVal`; Python dicts of JSON data are
    association lists with unique keys, `dict.get` is `List.lookup`.
-/

namespace QuizAgent

/-- A JSON value, the result of `json.loads` on model output. -/
inductive JsonVal where
  | null
  | bool (b : Bool)
  | num (n : Int)
  | str (s : String)
  | arr (xs : List JsonVal)
  | obj (fields : List (String × JsonVal))

/-- Python truthiness of a JSON value (`if m:` / `x or y`). -/
def pyTruthy : JsonVal → Bool
  | .null => false
  | .bool b => b
  | .num n => n != 0
  | .str s => s != ""
  | .arr xs => !xs.isEmpty
  | .obj fs => !fs.isEmpty

/-- Python `len` on a JSON value: defined for strings, arrays and objects,
raises (`none`) otherwise. -/
def pyLen : JsonVal → Option Nat
  | .str s => some s.length
  | .arr xs => some xs.length
  | .obj fs => some fs.length
  | _ => none

/-- FastAPI `HTTPException(status_code=..., detail=...)`. -/
structure HTTPException where
  status_code : Nat
  detail : String
deriving DecidableEq, Repr

/-- A Python exception as observed by the caller: either an `HTTPException`
raised deliberately by the code, or any other, unhandled exception. -/
inductive PyErr where
  | httpExc (e : HTTPException)
  | unhandled
deriving DecidableEq, Repr

/-- Request body of `POST /quiz/generate` (pydantic model `QuizGenerateRequest`,
src/main.py lines 31-36), with the same field defaults. -/
structure QuizGenerateRequest where
  candidate_id : String
  role : String
  skills : List String := []
  difficulty : String := "medium"
  num_questions : Nat := 8
deriving DecidableEq, Repr

/-- The environment-supplied configuration read at module load
(src/main.py lines 12-24).  An empty string models an unset variable, exactly
as the Python code tests them with `if not VAR`. -/
structure Config where
  MEM0_API_KEY : String
  OPENROUTER_API_KEY : String
  CHROMA_HOST : String
  CHROMA_COLLECTION : String
  AGENT_SECRET : String
deriving DecidableEq, Repr

/-- `require_secret` (src/main.py lines 39-44): no-op when `AGENT_SECRET` is
unset; otherwise 401 unless the supplied header equals the secret.  The header
is `Option String` because FastAPI passes `None` for an absent header. -/
def require_secret (AGENT_SECRET : String) (x_agent_secret : Option String) :
    Except HTTPException Unit :=
  if AGENT_SECRET = "" then
    .ok ()
  else if x_agent_secret ≠ some AGENT_SECRET then
    .error ⟨401, "Unauthorized"⟩
  else
    .ok ()

/-- `mem0_headers` (src/main.py lines 47-54): 500 when the key is unset,
otherwise the literal header dictionary. -/
def mem0_headers (MEM0_API_KEY : String) :
    Except HTTPException (List (String × String)) :=
  if MEM0_API_KEY = "" then
    .error ⟨500, "MEM0_API_KEY not set"⟩
  else
    .ok [("Authorization", "Token " ++ MEM0_API_KEY),
         ("Content-Type", "application/json"),
         ("Accept", "application/json")]

/-- `openrouter_headers` (src/main.py lines 57-63). -/
def openrouter_headers (OPENROUTER_API_KEY : String) :
    Except HTTPException (List (String × String)) :=
  if OPENROUTER_API_KEY = "" then
    .error ⟨500, "OPENROUTER_API_KEY not set"⟩
  else
    .ok [("Authorization", "Bearer " ++ OPENROUTER_API_KEY),
         ("Content-Type", "application/json")]

/-- A resolved Chroma collection handle (the object returned by
`client.get_or_create_collection`), identified by its name. -/
structure Collection where
  name : String
deriving DecidableEq, Repr

/-- `get_chroma_collection` (src/main.py lines 66-70): 500 when `CHROMA_HOST`
is unset; otherwise the `chromadb` client call proceeds, which as a network
operation may itself raise (oracle flag `resolveRaises`). -/
def get_chroma_collection (CHROMA_HOST CHROMA_COLLECTION : String)
    (resolveRaises : Bool) : Except PyErr Collection :=
  if CHROMA_HOST = "" then
    .error (.httpExc ⟨500, "CHROMA_HOST not set"⟩)
  else if resolveRaises then
    .error .unhandled
  else
    .ok ⟨CHROMA_COLLECTION⟩

/-- One item of the list returned by the Mem0 search endpoint.  The code reads
the free-text fields `item.get("memory")` and `item.get("text")`; a `none`
field models the key being absent or null. -/
structure Mem0Item where
  memory : Option String
  text : Option String

/-- Parsed shape of the Mem0 search response body, as the code distinguishes
it: `r.json()` yields a list (the only shape the loop consumes), yields
some other JSON value (`isinstance(data, list)` is false), or the body is not
JSON at all (`r.json()` raises). -/
inductive Mem0SearchBody where
  | jsonList (items : List Mem0Item)
  | jsonOther
  | notJson

/-- Oracle for the outbound Mem0 search call: the request raised (network or
timeout), or the service responded with a status, raw body text and body. -/
inductive Mem0SearchOutcome where
  | raised
  | responded (status : Nat) (text : String) (body : Mem0SearchBody)

/-- The request payload built by `mem0_search_candidate`
(src/main.py lines 77-82).  `filters_AND` is the list of clauses of the
`"AND"` filter. -/
structure Mem0SearchPayload where
  query : String
  filters_AND : List (String × String)
  top_k : Nat
  version : String
deriving DecidableEq, Repr

/-- The literal payload of the Mem0 search request for a candidate. -/
def mem0_search_payload (candidate_id : String) : Mem0SearchPayload :=
  { query := "candidate quiz preferences and history",
    filters_AND := [("user_id", candidate_id)],
    top_k := 5,
    version := "v2" }

/-- The Python expression `item.get("memory") or item.get("text") or ""`
over string-or-absent fields: an absent or empty `memory` falls back to
`text`, an absent `text` to the empty string. -/
def mem0_item_string (it : Mem0Item) : String :=
  let a := it.memory.getD ""
  if a ≠ "" then a else it.text.getD ""

/-- `mem0_search_candidate` (src/main.py lines 73-94): builds the payload,
sends it with `mem0_headers` (so an unset key raises 500 first), maps a
non-success status to a 502 carrying the body, and otherwise collects the
truthy extracted strings of a list-shaped body in order. -/
def mem0_search_candidate (MEM0_API_KEY candidate_id : String)
    (o : Mem0SearchOutcome) : Except PyErr (List String) :=
  match mem0_headers MEM0_API_KEY with
  | .error e => .error (.httpExc e)
  | .ok _ =>
    let _payload := mem0_search_payload candidate_id
    match o with
    | .raised => .error .unhandled
    | .responded status text body =>
      if status ≥ 400 then
        .error (.httpExc ⟨502, "Mem0 search failed: " ++ text⟩)
      else
        match body with
        | .notJson => .error .unhandled
        | .jsonOther => .ok []
        | .jsonList items =>
          .ok (items.filterMap fun it =>
            let m := mem0_item_string it
            if m ≠ "" then some m else none)

/-- Oracle for an outbound call whose parsed body the code never reads
(Mem0 add): raised, or responded with a status and raw body text. -/
inductive EndpointOutcome where
  | raised
  | responded (status : Nat) (text : String)

/-- The summary dict built by the orchestrator (src/main.py lines 210-217).
`quiz_title` is `Option JsonVal` because `quiz.get("quiz_title")` may be
`None`; `role` and `difficulty` are whatever JSON value the quiz carries,
with the request string as the fallback. -/
structure Summary where
  type : String
  quiz_title : Option JsonVal
  role : JsonVal
  difficulty : JsonVal
  num_questions : Nat
  skills_hint : List String

/-- The JSON object serialized by `json.dumps(summary)`, with the fields in
the order of the Python dict literal. -/
def summaryToJson (s : Summary) : JsonVal :=
  .obj [("type", .str s.type),
        ("quiz_title", s.quiz_title.getD .null),
        ("role", s.role),
        ("difficulty", s.difficulty),
        ("num_questions", .num s.num_questions),
        ("skills_hint", .arr (s.skills_hint.map .str))]

/-- The request payload built by `mem0_add_summary`
(src/main.py lines 100-107); message entries are (role, content) pairs. -/
structure Mem0AddPayload where
  user_id : String
  messages : List (String × String)
  metadata : List (String × String)
deriving DecidableEq, Repr

/-- The literal payload of the Mem0 add request. -/
def mem0_add_payload (candidate_id summary_json : String) : Mem0AddPayload :=
  { user_id := candidate_id,
    messages := [("user", "Quiz generated for recruitment assessment."),
                 ("assistant", summary_json)],
    metadata := [("source", "quiz-agent-poc"), ("kind", "quiz_summary")] }

/-- `mem0_add_summary` (src/main.py lines 97-110): headers first (500 on unset
key), then a 502 carrying the body on a non-success status. -/
def mem0_add_summary (MEM0_API_KEY candidate_id : String) (summary : Summary)
    (dumps : JsonVal → String) (o : EndpointOutcome) : Except PyErr Unit :=
  match mem0_headers MEM0_API_KEY with
  | .error e => .error (.httpExc e)
  | .ok _ =>
    let _payload := mem0_add_payload candidate_id (dumps (summaryToJson summary))
    match o with
    | .raised => .error .unhandled
    | .responded status text =>
      if status ≥ 400 then
        .error (.httpExc ⟨502, "Mem0 add failed: " ++ text⟩)
      else
        .ok ()

/-- Oracle for the Chroma similarity query (`collection.query`):
`raises` covers every exception inside the `try` block — the network call
failing as well as any malformed response whose extraction raises (a null
`documents` value, a non-list shape, and so on).  `returns documents` is a
completed call; the outer `Option` is the presence of the `"documents"` key
(`none` means absent, so `res.get` falls back to the default `[[]]`), the
inner `Option` is a possibly-null first list, and each entry is a
possibly-null document text. -/
inductive ChromaQueryOutcome where
  | raises
  | returns (documents : Option (List (Option (List (Option String)))))

/-- `chroma_similar_quizzes` (src/main.py lines 113-122):
`res.get("documents", [[]])[0] or []`, keep the truthy entries, and return
`[]` on any exception.  Subscripting an empty list raises IndexError inside
the `try`, hence also `[]`. -/
def chroma_similar_quizzes (o : ChromaQueryOutcome) : List String :=
  match o with
  | .raises => []
  | .returns documents =>
    match documents.getD [some []] with
    | [] => []
    | first :: _ =>
      (first.getD []).filterMap fun d =>
        match d with
        | some s => if s ≠ "" then some s else none
        | none => none

/-- The single upsert issued by `chroma_store_quiz`: the collection it is
addressed to and the literal `ids`, `documents` and `metadatas` arguments. -/
structure UpsertCall where
  collection : Collection
  ids : List String
  documents : List String
  metadatas : List (List (String × JsonVal))

/-- `chroma_store_quiz` (src/main.py lines 125-138): document id
`quiz_<candidate>_<millis>`, document text `json.dumps(quiz)`, and a metadata
dict of candidate id, the quiz fields `role`, `difficulty` and `quiz_title`
(null when absent, as `dict.get` without default), and the fixed
`source` tag.  `quiz.get` on a non-dict raises. -/
def chroma_store_quiz (collection : Collection) (candidate_id : String)
    (quiz : JsonVal) (dumps : JsonVal → String) (nowMs : Nat) :
    Except PyErr UpsertCall :=
  let doc := dumps quiz
  let quiz_id := "quiz_" ++ candidate_id ++ "_" ++ toString nowMs
  match quiz with
  | .obj fields =>
    .ok { collection := collection,
          ids := [quiz_id],
          documents := [doc],
          metadatas := [[("candidate_id", .str candidate_id),
                         ("role", (fields.lookup "role").getD .null),
                         ("difficulty", (fields.lookup "difficulty").getD .null),
                         ("quiz_title", (fields.lookup "quiz_title").getD .null),
                         ("source", .str "quiz-agent-poc")]] }
  | _ => .error .unhandled

/-- Oracle for the OpenRouter chat-completions call: raised, or responded
with a status and raw body text.  `content` is the result of the unguarded
extraction `r.json()["choices"][0]["message"]["content"]` on a success body:
`none` means the body is not JSON or lacks that path, so the extraction
raises an unhandled exception. -/
inductive OROutcome where
  | raised
  | responded (status : Nat) (text : String) (content : Option String)

/-- `openrouter_generate_quiz` (src/main.py lines 141-194): headers first
(500 on unset key); a non-success status is a 502 carrying the body; then the
unguarded envelope extraction; then `json.loads(content)` (`parse`), whose
failure alone is guarded and mapped to the 502 invalid-model-output error
carrying the first 500 characters of the content; a parsed value is returned
as is, with no schema validation.  The prompt built from `req`, `memories`
and `similar_quizzes` only shapes the outbound request, which the oracle
abstracts, so those arguments do not affect the result. -/
def openrouter_generate_quiz (OPENROUTER_API_KEY : String)
    (req : QuizGenerateRequest) (memories similar_quizzes : List String)
    (parse : String → Option JsonVal) (o : OROutcome) : Except PyErr JsonVal :=
  match openrouter_headers OPENROUTER_API_KEY with
  | .error e => .error (.httpExc e)
  | .ok _ =>
    match o with
    | .raised => .error .unhandled
    | .responded status text content =>
      if status ≥ 400 then
        .error (.httpExc ⟨502, "OpenRouter failed: " ++ text⟩)
      else
        match content with
        | none => .error .unhandled
        | some c =>
          match parse c with
          | none =>
            .error (.httpExc ⟨502, "Model did not return valid JSON: " ++ c.take 500⟩)
          | some quiz => .ok quiz

/-- The seven externally visible steps of the `/quiz/generate` orchestrator,
in source order (src/main.py lines 197-223). -/
inductive Step where
  | gate
  | memSearch
  | resolveColl
  | simQuery
  | quizGen
  | summaryAppend
  | quizUpsert
deriving DecidableEq, Repr

/-- The fixed order in which the orchestrator initiates its steps. -/
def stepOrder : List Step :=
  [.gate, .memSearch, .resolveColl, .simQuery, .quizGen, .summaryAppend, .quizUpsert]

/-- A trace is an initial segment of the fixed step order. -/
def initialSegment (t : List Step) : Prop :=
  ∃ k, t = stepOrder.take k

/-- The summary dict construction of the orchestrator
(src/main.py lines 210-217), factored out.  It can raise only through
attribute access on a non-dict quiz, or `len` on a value it is undefined
for; `quiz.get("questions", []) or []` replaces an absent or falsy
`questions` value by the empty list before taking its length. -/
def build_summary (payload : QuizGenerateRequest) (quiz : JsonVal) :
    Except PyErr Summary :=
  match quiz with
  | .obj fields =>
    let qv := (fields.lookup "questions").getD (.arr [])
    let qv := if pyTruthy qv then qv else .arr []
    match pyLen qv with
    | none => .error .unhandled
    | some n =>
      .ok { type := "quiz_generated",
            quiz_title := fields.lookup "quiz_title",
            role := (fields.lookup "role").getD (.str payload.role),
            difficulty := (fields.lookup "difficulty").getD (.str payload.difficulty),
            num_questions := n,
            skills_hint := payload.skills.take 10 }
  | _ => .error .unhandled

/-- Everything the external world contributes to one request: one oracle per
outbound call, the current millisecond clock, and the behaviour of the JSON
library. -/
structure World where
  mem0Search : Mem0SearchOutcome
  resolveRaises : Bool
  chromaQuery : ChromaQueryOutcome
  openrouter : OROutcome
  mem0Add : EndpointOutcome
  upsertRaises : Bool
  nowMs : Nat
  parse : String → Option JsonVal
  dumps : JsonVal → String

/-- The `/quiz/generate` handler `generate_quiz` (src/main.py lines 197-223):
secret gate, Mem0 search, collection resolution, similarity query, quiz
generation, summary append, quiz upsert, in that order, each aborting the
rest on failure; the parsed quiz is the response body on full success.
The first component is the trace of steps the handler initiated. -/
def generate_quiz (cfg : Config) (payload : QuizGenerateRequest)
    (x_agent_secret : Option String) (w : World) :
    List Step × Except PyErr JsonVal :=
  match require_secret cfg.AGENT_SECRET x_agent_secret with
  | .error e => ([.gate], .error (.httpExc e))
  | .ok _ =>
  match mem0_search_candidate cfg.MEM0_API_KEY payload.candidate_id w.mem0Search with
  | .error e => ([.gate, .memSearch], .error e)
  | .ok memories =>
  match get_chroma_collection cfg.CHROMA_HOST cfg.CHROMA_COLLECTION w.resolveRaises with
  | .error e => ([.gate, .memSearch, .resolveColl], .error e)
  | .ok collection =>
  let _query_text := "Role=" ++ payload.role ++ "; Skills="
      ++ String.intercalate "," payload.skills ++ "; Diff=" ++ payload.difficulty
  let similar := chroma_similar_quizzes w.chromaQuery
  match openrouter_generate_quiz cfg.OPENROUTER_API_KEY payload memories similar
      w.parse w.openrouter with
  | .error e => ([.gate, .memSearch, .resolveColl, .simQuery, .quizGen], .error e)
  | .ok quiz =>
  match build_summary payload quiz with
  | .error e => ([.gate, .memSearch, .resolveColl, .simQuery, .quizGen], .error e)
  | .ok summary =>
  match mem0_add_summary cfg.MEM0_API_KEY payload.candidate_id summary w.dumps w.mem0Add with
  | .error e =>
      ([.gate, .memSearch, .resolveColl, .simQuery, .quizGen, .summaryAppend], .error e)
  | .ok _ =>
  match chroma_store_quiz collection payload.candidate_id quiz w.dumps w.nowMs with
  | .error e => (stepOrder, .error e)
  | .ok _call =>
      if w.upsertRaises then (stepOrder, .error .unhandled)
      else (stepOrder, .ok quiz)

end QuizAgent

namespace QuizAgent

/-- Claim C1: with no configured shared secret the gate never raises; with a
configured secret it raises 401 Unauthorized exactly when the supplied token is
not equal to the secret, and accepts only the exact match. -/
theorem C1_secret_gate (AGENT_SECRET : String) (x_agent_secret : Option String) :
    (AGENT_SECRET = "" → require_secret AGENT_SECRET x_agent_secret = .ok ()) ∧
    (AGENT_SECRET ≠ "" →
      (require_secret AGENT_SECRET x_agent_secret = .error ⟨401, "Unauthorized"⟩ ↔
        x_agent_secret ≠ some AGENT_SECRET) ∧
      (require_secret AGENT_SECRET x_agent_secret = .ok () ↔
        x_agent_secret = some AGENT_SECRET)) := by
  constructor
  · intro h
    simp [require_secret, h]
  · intro h
    constructor
    · constructor
      · intro hres
        intro hx
        simp [require_secret, h, hx] at hres
      · intro hx
        simp [require_secret, h, hx]
    · constructor
      · intro hres
        by_cases hx : x_agent_secret = some AGENT_SECRET
        · exact hx
        · simp [require_secret, h, hx] at hres
      · intro hx
        simp [require_secret, h, hx]

/-- Witness for C1 at concrete inputs: secret "s" configured, matching header
accepted and mismatching header rejected; unset secret accepts absent header. -/
theorem C1_secret_gate_witness :
    require_secret "s" (some "s") = .ok () ∧
    require_secret "s" (some "t") = .error ⟨401, "Unauthorized"⟩ ∧
    require_secret "" none = .ok () := by
  refine ⟨((C1_secret_gate "s" (some "s")).2 (by decide)).2.mpr rfl, ?_, ?_⟩
  · exact ((C1_secret_gate "s" (some "t")).2 (by decide)).1.mpr (by decide)
  · exact (C1_secret_gate "" none).1 rfl

/-- Claim C4: the similarity query never raises to its caller — every failure
of the underlying query (the call raising, a missing `documents` key, an
empty or null first list) yields the empty sequence, and a well-formed
response yields exactly the truthy (non-null, non-empty) document texts of
the first result list in order.  The return type `List String` with no error
component is the never-raises part. -/
theorem C4_similar_soft_fail :
    (chroma_similar_quizzes .raises = []) ∧
    (chroma_similar_quizzes (.returns none) = []) ∧
    (chroma_similar_quizzes (.returns (some [])) = []) ∧
    (∀ rest, chroma_similar_quizzes (.returns (some (none :: rest))) = []) ∧
    (∀ (first : List String) (rest : List (Option (List (Option String)))),
      chroma_similar_quizzes (.returns (some (some (first.map some) :: rest))) =
        first.filter (fun s => s != "")) := by
  refine ⟨rfl, rfl, rfl, fun rest => rfl, fun first rest => ?_⟩
  simp [chroma_similar_quizzes]
  induction first with
  | nil => rfl
  | cons hd tl ih =>
    by_cases h : hd = ""
    · simp [h, ih]
    · simp [h, ih]

/-- Specification-side reading of the Mem0 result extraction, written from
the words of the spec: take the `memory` field of each item, fall back to the
`text` field, and discard empty extractions. -/
def mem0_item_spec (it : Mem0Item) : Option String :=
  match it.memory with
  | some m =>
    if m ≠ "" then some m
    else match it.text with
      | some t => if t ≠ "" then some t else none
      | none => none
  | none =>
    match it.text with
    | some t => if t ≠ "" then some t else none
    | none => none

/-- Specification-side reading of the whole extraction over a result list. -/
def mem0ExtractSpec (items : List Mem0Item) : List String :=
  items.filterMap mem0_item_spec

/-- The source extraction (`item.get("memory") or item.get("text") or ""`,
kept when truthy) agrees item by item with the spec-side reading. -/
theorem mem0_item_string_eq_spec (it : Mem0Item) :
    (if mem0_item_string it ≠ "" then some (mem0_item_string it) else none) =
      mem0_item_spec it := by
  rcases it with ⟨memory, text⟩
  cases memory with
  | none =>
    cases text with
    | none => rfl
    | some t =>
      by_cases ht : t = "" <;> simp [mem0_item_string, mem0_item_spec, ht]
  | some m =>
    by_cases hm : m = ""
    · cases text with
      | none => simp [mem0_item_string, mem0_item_spec, hm]
      | some t =>
        by_cases ht : t = "" <;> simp [mem0_item_string, mem0_item_spec, hm, ht]
    · simp [mem0_item_string, mem0_item_spec, hm]

/-- Claim C6: the Mem0 search requests at most 5 results scoped to the
candidate identifier; with a configured key it raises the 502 carrying the
upstream body exactly on a non-success status (and no `HTTPException` on a
success status); on a success status with a list body it returns the
extracted strings (memory field, text fallback, empties discarded) in order,
and an empty result list gives the empty sequence. -/
theorem C6_mem0_search (key cid : String) (hkey : key ≠ "") :
    ((mem0_search_payload cid).top_k = 5 ∧
     (mem0_search_payload cid).filters_AND = [("user_id", cid)]) ∧
    (∀ status text body, 400 ≤ status →
      mem0_search_candidate key cid (.responded status text body) =
        .error (.httpExc ⟨502, "Mem0 search failed: " ++ text⟩)) ∧
    (∀ status text body, status < 400 →
      ∀ e, mem0_search_candidate key cid (.responded status text body) ≠
        .error (.httpExc e)) ∧
    (∀ status text items, status < 400 →
      mem0_search_candidate key cid (.responded status text (.jsonList items)) =
        .ok (mem0ExtractSpec items)) ∧
    (∀ status text, status < 400 →
      mem0_search_candidate key cid (.responded status text (.jsonList [])) =
        .ok []) := by
  have hlist : ∀ status text items, status < 400 →
      mem0_search_candidate key cid (.responded status text (.jsonList items)) =
        .ok (mem0ExtractSpec items) := by
    intro status text items hlt
    have hnot : ¬ (400 ≤ status) := by omega
    simp only [mem0_search_candidate, mem0_headers, if_neg hkey, if_neg hnot,
      mem0ExtractSpec]
    exact congrArg Except.ok
      (List.filterMap_congr fun it _ => mem0_item_string_eq_spec it)
  refine ⟨⟨rfl, rfl⟩, ?_, ?_, hlist, fun status text h => hlist status text [] h⟩
  · intro status text body hge
    simp [mem0_search_candidate, mem0_headers, hkey, hge]
  · intro status text body hlt e
    have hnot : ¬ (400 ≤ status) := by omega
    cases body with
    | jsonList items => simp [mem0_search_candidate, mem0_headers, hkey, hnot]
    | jsonOther => simp [mem0_search_candidate, mem0_headers, hkey, hnot]
    | notJson => simp [mem0_search_candidate, mem0_headers, hkey, hnot]

/-- Witness for C6 at concrete inputs: key "k", candidate "c1"; a 500 upstream
status maps to the 502 carrying the body; a 200 with three items — memory
present, memory empty with text fallback, both absent — yields the two
extracted strings in order. -/
theorem C6_mem0_search_witness :
    mem0_search_candidate "k" "c1" (.responded 500 "boom" .jsonOther) =
      .error (.httpExc ⟨502, "Mem0 search failed: " ++ "boom"⟩) ∧
    mem0_search_candidate "k" "c1" (.responded 200 ""
        (.jsonList [⟨some "m1", none⟩, ⟨some "", some "t2"⟩, ⟨none, none⟩])) =
      .ok ["m1", "t2"] := by
  constructor
  · exact (C6_mem0_search "k" "c1" (by decide)).2.1 500 "boom" .jsonOther (by decide)
  · have h := (C6_mem0_search "k" "c1" (by decide)).2.2.2.1 200 ""
      [⟨some "m1", none⟩, ⟨some "", some "t2"⟩, ⟨none, none⟩] (by decide)
    rw [h]
    rfl

/-- Claim C8: each operation that requires a credential fails at call time
with the 500-class configuration error naming the missing variable when that
credential is empty, and builds its headers (or proceeds) when it is set. -/
theorem C8_missing_credentials :
    (∀ cid o, mem0_search_candidate "" cid o =
      .error (.httpExc ⟨500, "MEM0_API_KEY not set"⟩)) ∧
    (∀ req mems sims parse o, openrouter_generate_quiz "" req mems sims parse o =
      .error (.httpExc ⟨500, "OPENROUTER_API_KEY not set"⟩)) ∧
    (∀ collName resolveRaises, get_chroma_collection "" collName resolveRaises =
      .error (.httpExc ⟨500, "CHROMA_HOST not set"⟩)) ∧
    (∀ key, key ≠ "" → mem0_headers key =
      .ok [("Authorization", "Token " ++ key),
           ("Content-Type", "application/json"),
           ("Accept", "application/json")]) ∧
    (∀ key, key ≠ "" → openrouter_headers key =
      .ok [("Authorization", "Bearer " ++ key),
           ("Content-Type", "application/json")]) ∧
    (∀ host collName, host ≠ "" →
      get_chroma_collection host collName false = .ok ⟨collName⟩) := by
  refine ⟨?_, ?_, ?_, ?_, ?_, ?_⟩
  · intro cid o; rfl
  · intro req mems sims parse o; rfl
  · intro collName resolveRaises; rfl
  · intro key hk; simp [mem0_headers, hk]
  · intro key hk; simp [openrouter_headers, hk]
  · intro host collName hh; simp [get_chroma_collection, hh]

/-- Witness for C8 at concrete inputs: an empty key fails the search with the
named 500 error, and a set key builds the headers. -/
theorem C8_missing_credentials_witness :
    mem0_search_candidate "" "c1" .raised =
      .error (.httpExc ⟨500, "MEM0_API_KEY not set"⟩) ∧
    openrouter_headers "ok" =
      .ok [("Authorization", "Bearer " ++ "ok"),
           ("Content-Type", "application/json")] ∧
    get_chroma_collection "h" "quizzes" false = .ok ⟨"quizzes"⟩ :=
  ⟨C8_missing_credentials.1 "c1" .raised,
   C8_missing_credentials.2.2.2.2.1 "ok" (by decide),
   C8_missing_credentials.2.2.2.2.2 "h" "quizzes" (by decide)⟩

/-- Left cancellation for string append, via the underlying character data. -/
theorem string_append_cancel_left {a b c : String} (h : a ++ b = a ++ c) :
    b = c := by
  have h2 := congrArg String.data h
  simp only [String.data_append] at h2
  exact String.ext (List.append_cancel_left h2)

/-- Claim C3: with a configured key, the completion call maps a non-success
upstream status to the 502 carrying the body; non-JSON content to the
distinct 502 invalid-model-output error carrying the first 500 characters of
the content; and valid-JSON content to the parsed value, whatever its shape
(no schema validation). -/
theorem C3_openrouter_quiz (key : String) (hkey : key ≠ "")
    (req : QuizGenerateRequest) (mems sims : List String)
    (parse : String → Option JsonVal) :
    (∀ status text content, 400 ≤ status →
      openrouter_generate_quiz key req mems sims parse
          (.responded status text content) =
        .error (.httpExc ⟨502, "OpenRouter failed: " ++ text⟩)) ∧
    (∀ status text c, status < 400 → parse c = none →
      openrouter_generate_quiz key req mems sims parse
          (.responded status text (some c)) =
        .error (.httpExc ⟨502, "Model did not return valid JSON: " ++ c.take 500⟩)) ∧
    (∀ status text c quiz, status < 400 → parse c = some quiz →
      openrouter_generate_quiz key req mems sims parse
          (.responded status text (some c)) = .ok quiz) := by
  refine ⟨?_, ?_, ?_⟩
  · intro status text content hge
    simp [openrouter_generate_quiz, openrouter_headers, hkey, hge]
  · intro status text c hlt hparse
    have hnot : ¬ (400 ≤ status) := by omega
    simp [openrouter_generate_quiz, openrouter_headers, hkey, hnot, hparse]
  · intro status text c quiz hlt hparse
    have hnot : ¬ (400 ≤ status) := by omega
    simp [openrouter_generate_quiz, openrouter_headers, hkey, hnot, hparse]

/-- Witness for C3 at concrete inputs: key "k", a parser accepting exactly
the string of a one-element array; a 500 upstream body surfaces as the 502;
unparseable content "x" gives the invalid-model-output 502 with the 500-char
prefix; content of a one-element array parses and is returned as is. -/
theorem C3_openrouter_quiz_witness :
    openrouter_generate_quiz "k" ⟨"c1", "Backend Engineer", ["Go", "SQL"], "medium", 5⟩
        [] [] (fun s => if s = "[1]" then some (.arr [.num 1]) else none)
        (.responded 500 "body" none) =
      .error (.httpExc ⟨502, "OpenRouter failed: " ++ "body"⟩) ∧
    openrouter_generate_quiz "k" ⟨"c1", "Backend Engineer", ["Go", "SQL"], "medium", 5⟩
        [] [] (fun s => if s = "[1]" then some (.arr [.num 1]) else none)
        (.responded 200 "" (some "x")) =
      .error (.httpExc ⟨502, "Model did not return valid JSON: " ++ String.take "x" 500⟩) ∧
    openrouter_generate_quiz "k" ⟨"c1", "Backend Engineer", ["Go", "SQL"], "medium", 5⟩
        [] [] (fun s => if s = "[1]" then some (.arr [.num 1]) else none)
        (.responded 200 "" (some "[1]")) = .ok (.arr [.num 1]) := by
  refine ⟨?_, ?_, ?_⟩
  · exact (C3_openrouter_quiz "k" (by decide) _ [] [] _).1 500 "body" none (by decide)
  · exact (C3_openrouter_quiz "k" (by decide) _ [] [] _).2.1 200 "" "x"
      (by decide) rfl
  · exact (C3_openrouter_quiz "k" (by decide) _ [] [] _).2.2 200 "" "[1]"
      (.arr [.num 1]) (by decide) (by simp)

/-- Claim C10: on a success status only the JSON parse of the extracted
content is guarded — a body whose envelope extraction fails raises an
unhandled exception rather than an `HTTPException`, and the guarded
invalid-model-output 502 arises only from a well-formed success envelope
whose content failed to parse. -/
theorem C10_unguarded_envelope (key : String) (hkey : key ≠ "")
    (req : QuizGenerateRequest) (mems sims : List String)
    (parse : String → Option JsonVal) :
    (∀ status text, status < 400 →
      openrouter_generate_quiz key req mems sims parse
          (.responded status text none) = .error .unhandled) ∧
    (∀ status text content d, status < 400 →
      openrouter_generate_quiz key req mems sims parse
          (.responded status text content) =
        .error (.httpExc ⟨502, "Model did not return valid JSON: " ++ d⟩) →
      ∃ c, content = some c ∧ parse c = none ∧ d = c.take 500) := by
  constructor
  · intro status text hlt
    have hnot : ¬ (400 ≤ status) := by omega
    simp [openrouter_generate_quiz, openrouter_headers, hkey, hnot]
  · intro status text content d hlt hres
    have hnot : ¬ (400 ≤ status) := by omega
    cases content with
    | none =>
      simp [openrouter_generate_quiz, openrouter_headers, hkey, hnot] at hres
    | some c =>
      refine ⟨c, rfl, ?_, ?_⟩
      · cases hp : parse c with
        | none => rfl
        | some quiz =>
          simp [openrouter_generate_quiz, openrouter_headers, hkey, hnot, hp] at hres
      · cases hp : parse c with
        | some quiz =>
          simp [openrouter_generate_quiz, openrouter_headers, hkey, hnot, hp] at hres
        | none =>
          simp [openrouter_generate_quiz, openrouter_headers, hkey, hnot, hp] at hres
          exact (string_append_cancel_left hres.symm)

/-- Witness for C10 at concrete inputs: a 200 whose envelope lacks the
content path ends in an unhandled exception, not an `HTTPException`. -/
theorem C10_unguarded_envelope_witness :
    openrouter_generate_quiz "k" ⟨"c1", "Backend Engineer", ["Go", "SQL"], "medium", 5⟩
        [] [] (fun _ => none) (.responded 200 "not a completion envelope" none) =
      .error .unhandled :=
  (C10_unguarded_envelope "k" (by decide) _ [] [] _).1 200
    "not a completion envelope" (by decide)

/-- Claim C5: in the persisted summary, the role and difficulty from the
model output take precedence; the request values are used exactly when the
corresponding field is absent from the output. -/
theorem C5_summary_precedence (payload : QuizGenerateRequest)
    (fields : List (String × JsonVal)) (s : Summary)
    (h : build_summary payload (.obj fields) = .ok s) :
    (∀ v, fields.lookup "role" = some v → s.role = v) ∧
    (fields.lookup "role" = none → s.role = .str payload.role) ∧
    (∀ v, fields.lookup "difficulty" = some v → s.difficulty = v) ∧
    (fields.lookup "difficulty" = none → s.difficulty = .str payload.difficulty) := by
  have hs : s.role = (fields.lookup "role").getD (.str payload.role) ∧
      s.difficulty = (fields.lookup "difficulty").getD (.str payload.difficulty) := by
    simp only [build_summary] at h
    rcases hq : pyLen (if pyTruthy ((fields.lookup "questions").getD (.arr []))
        then (fields.lookup "questions").getD (.arr []) else .arr []) with _ | n
    · rw [hq] at h; exact absurd h (by simp)
    · rw [hq] at h
      have := (Except.ok.injEq _ _).mp h
      rw [← this]
      exact ⟨rfl, rfl⟩
  refine ⟨?_, ?_, ?_, ?_⟩
  · intro v hv; rw [hs.1, hv]; rfl
  · intro hv; rw [hs.1, hv]; rfl
  · intro v hv; rw [hs.2, hv]; rfl
  · intro hv; rw [hs.2, hv]; rfl

/-- Witness for C5 at a concrete input: a quiz whose output carries
role "R" but no difficulty; the summary takes "R" and falls back to the
request difficulty "medium". -/
theorem C5_summary_precedence_witness :
    (⟨"quiz_generated", none, .str "R", .str "medium", 0, ["Go"]⟩ : Summary).role
        = .str "R" ∧
    (⟨"quiz_generated", none, .str "R", .str "medium", 0, ["Go"]⟩ : Summary).difficulty
        = .str "medium" :=
  ⟨(C5_summary_precedence ⟨"c1", "Backend Engineer", ["Go"], "medium", 5⟩
      [("role", JsonVal.str "R"), ("questions", JsonVal.arr [])]
      ⟨"quiz_generated", none, .str "R", .str "medium", 0, ["Go"]⟩ rfl).1
      (.str "R") rfl,
   (C5_summary_precedence ⟨"c1", "Backend Engineer", ["Go"], "medium", 5⟩
      [("role", JsonVal.str "R"), ("questions", JsonVal.arr [])]
      ⟨"quiz_generated", none, .str "R", .str "medium", 0, ["Go"]⟩ rfl).2.2.2 rfl⟩

/-- Claim C9: the persisted summary's `skills_hint` is exactly the first 10
skill tags of the request in order; when the request has at most 10 it is all
of them, so tags beyond the tenth are never persisted. -/
theorem C9_skills_hint (payload : QuizGenerateRequest) (quiz : JsonVal)
    (s : Summary) (h : build_summary payload quiz = .ok s) :
    s.skills_hint = payload.skills.take 10 ∧
    (payload.skills.length ≤ 10 → s.skills_hint = payload.skills) := by
  have hs : s.skills_hint = payload.skills.take 10 := by
    cases quiz with
    | obj fields =>
      simp only [build_summary] at h
      rcases hq : pyLen (if pyTruthy ((fields.lookup "questions").getD (.arr []))
          then (fields.lookup "questions").getD (.arr []) else .arr []) with _ | n
      · rw [hq] at h; exact absurd h (by simp)
      · rw [hq] at h
        have := (Except.ok.injEq _ _).mp h
        rw [← this]
    | null => exact absurd h (by simp [build_summary])
    | bool b => exact absurd h (by simp [build_summary])
    | num n => exact absurd h (by simp [build_summary])
    | str str => exact absurd h (by simp [build_summary])
    | arr xs => exact absurd h (by simp [build_summary])
  exact ⟨hs, fun hle => by rw [hs, List.take_of_length_le hle]⟩

/-- Witness for C9 at a concrete input: twelve skill tags, the summary keeps
the first ten. -/
theorem C9_skills_hint_witness :
    (⟨"quiz_generated", none, .str "Backend Engineer", .str "medium", 0,
        ["s1", "s2", "s3", "s4", "s5", "s6", "s7", "s8", "s9", "s10"]⟩ : Summary).skills_hint
      = List.take 10
          ["s1", "s2", "s3", "s4", "s5", "s6", "s7", "s8", "s9", "s10", "s11", "s12"] :=
  (C9_skills_hint
    ⟨"c1", "Backend Engineer",
      ["s1", "s2", "s3", "s4", "s5", "s6", "s7", "s8", "s9", "s10", "s11", "s12"],
      "medium", 5⟩
    (.obj [])
    ⟨"quiz_generated", none, .str "Backend Engineer", .str "medium", 0,
      ["s1", "s2", "s3", "s4", "s5", "s6", "s7", "s8", "s9", "s10"]⟩ rfl).1

/-- The metadata key lists of an upsert call result, for inspecting which
keys the stored metadata carries. -/
def metaKeysOf : Except PyErr UpsertCall → List (List String)
  | .ok c => c.metadatas.map fun m => m.map Prod.fst
  | .error _ => []

/-- Counterexample to C7 as stated: at a concrete quiz, the upserted metadata
does not consist of exactly the keys candidate_id, role, difficulty and
quiz_title — the code also stores a fixed `source` tag. -/
theorem C7_store_metadata_counterexample :
    metaKeysOf (chroma_store_quiz ⟨"quizzes"⟩ "c1"
        (.obj [("quiz_title", .str "T"), ("role", .str "R"),
               ("difficulty", .str "medium")])
        (fun _ => "") 1000) ≠
      [["candidate_id", "role", "difficulty", "quiz_title"]] := by
  decide

/-- Claim C7 as amended: the document identifier is the fixed prefix
`quiz_` followed by the candidate identifier and the millisecond timestamp,
and the document is upserted with metadata consisting of `candidate_id`
(from the request), `role`, `difficulty` and `quiz_title` (each taken from
the generated quiz, null when absent), plus the fixed tag
`source = "quiz-agent-poc"`. -/
theorem C7_store_quiz_amended (collection : Collection) (candidate_id : String)
    (fields : List (String × JsonVal)) (dumps : JsonVal → String) (nowMs : Nat) :
    chroma_store_quiz collection candidate_id (.obj fields) dumps nowMs =
      .ok { collection := collection,
            ids := ["quiz_" ++ candidate_id ++ "_" ++ toString nowMs],
            documents := [dumps (.obj fields)],
            metadatas := [[("candidate_id", .str candidate_id),
                           ("role", (fields.lookup "role").getD .null),
                           ("difficulty", (fields.lookup "difficulty").getD .null),
                           ("quiz_title", (fields.lookup "quiz_title").getD .null),
                           ("source", .str "quiz-agent-poc")]] } := rfl

/-- Claim C2: the orchestrator initiates its steps in the fixed order
gate, memory search, collection resolution, similarity query, quiz
generation, summary append, quiz upsert — every trace is an initial segment
of that order; a success response means all seven steps ran and the body is
verbatim the quiz that the completion step parsed; and when the earlier steps
succeeded but quiz generation failed, the request fails with that very error
and neither the summary append nor the quiz upsert is ever initiated. -/
theorem C2_pipeline (cfg : Config) (payload : QuizGenerateRequest)
    (x_agent_secret : Option String) (w : World) :
    initialSegment (generate_quiz cfg payload x_agent_secret w).1 ∧
    (∀ quiz, (generate_quiz cfg payload x_agent_secret w).2 = .ok quiz →
      (generate_quiz cfg payload x_agent_secret w).1 = stepOrder ∧
      ∃ memories,
        mem0_search_candidate cfg.MEM0_API_KEY payload.candidate_id w.mem0Search
          = .ok memories ∧
        openrouter_generate_quiz cfg.OPENROUTER_API_KEY payload memories
          (chroma_similar_quizzes w.chromaQuery) w.parse w.openrouter = .ok quiz) ∧
    (∀ memories collection e,
      require_secret cfg.AGENT_SECRET x_agent_secret = .ok () →
      mem0_search_candidate cfg.MEM0_API_KEY payload.candidate_id w.mem0Search
        = .ok memories →
      get_chroma_collection cfg.CHROMA_HOST cfg.CHROMA_COLLECTION w.resolveRaises
        = .ok collection →
      openrouter_generate_quiz cfg.OPENROUTER_API_KEY payload memories
        (chroma_similar_quizzes w.chromaQuery) w.parse w.openrouter = .error e →
      (generate_quiz cfg payload x_agent_secret w).2 = .error e ∧
      Step.summaryAppend ∉ (generate_quiz cfg payload x_agent_secret w).1 ∧
      Step.quizUpsert ∉ (generate_quiz cfg payload x_agent_secret w).1) := by
  refine ⟨?_, ?_, ?_⟩
  · cases h1 : require_secret cfg.AGENT_SECRET x_agent_secret with
    | error e1 => exact ⟨1, by simp [generate_quiz, h1, stepOrder]⟩
    | ok u1 =>
    cases h2 : mem0_search_candidate cfg.MEM0_API_KEY payload.candidate_id
        w.mem0Search with
    | error e2 => exact ⟨2, by simp [generate_quiz, h1, h2, stepOrder]⟩
    | ok memories =>
    cases h3 : get_chroma_collection cfg.CHROMA_HOST cfg.CHROMA_COLLECTION
        w.resolveRaises with
    | error e3 => exact ⟨3, by simp [generate_quiz, h1, h2, h3, stepOrder]⟩
    | ok collection =>
    cases h4 : openrouter_generate_quiz cfg.OPENROUTER_API_KEY payload memories
        (chroma_similar_quizzes w.chromaQuery) w.parse w.openrouter with
    | error e4 => exact ⟨5, by simp [generate_quiz, h1, h2, h3, h4, stepOrder]⟩
    | ok quiz =>
    cases h5 : build_summary payload quiz with
    | error e5 => exact ⟨5, by simp [generate_quiz, h1, h2, h3, h4, h5, stepOrder]⟩
    | ok summary =>
    cases h6 : mem0_add_summary cfg.MEM0_API_KEY payload.candidate_id summary
        w.dumps w.mem0Add with
    | error e6 => exact ⟨6, by simp [generate_quiz, h1, h2, h3, h4, h5, h6, stepOrder]⟩
    | ok u6 =>
    cases h7 : chroma_store_quiz collection payload.candidate_id quiz w.dumps
        w.nowMs with
    | error e7 =>
      exact ⟨7, by simp [generate_quiz, h1, h2, h3, h4, h5, h6, h7, stepOrder]⟩
    | ok call =>
      cases h8 : w.upsertRaises with
      | true =>
        exact ⟨7, by simp [generate_quiz, h1, h2, h3, h4, h5, h6, h7, h8, stepOrder]⟩
      | false =>
        exact ⟨7, by simp [generate_quiz, h1, h2, h3, h4, h5, h6, h7, h8, stepOrder]⟩
  · intro quiz hok
    cases h1 : require_secret cfg.AGENT_SECRET x_agent_secret with
    | error e1 => simp [generate_quiz, h1] at hok
    | ok u1 =>
    cases h2 : mem0_search_candidate cfg.MEM0_API_KEY payload.candidate_id
        w.mem0Search with
    | error e2 => simp [generate_quiz, h1, h2] at hok
    | ok memories =>
    cases h3 : get_chroma_collection cfg.CHROMA_HOST cfg.CHROMA_COLLECTION
        w.resolveRaises with
    | error e3 => simp [generate_quiz, h1, h2, h3] at hok
    | ok collection =>
    cases h4 : openrouter_generate_quiz cfg.OPENROUTER_API_KEY payload memories
        (chroma_similar_quizzes w.chromaQuery) w.parse w.openrouter with
    | error e4 => simp [generate_quiz, h1, h2, h3, h4] at hok
    | ok quiz0 =>
    cases h5 : build_summary payload quiz0 with
    | error e5 => simp [generate_quiz, h1, h2, h3, h4, h5] at hok
    | ok summary =>
    cases h6 : mem0_add_summary cfg.MEM0_API_KEY payload.candidate_id summary
        w.dumps w.mem0Add with
    | error e6 => simp [generate_quiz, h1, h2, h3, h4, h5, h6] at hok
    | ok u6 =>
    cases h7 : chroma_store_quiz collection payload.candidate_id quiz0 w.dumps
        w.nowMs with
    | error e7 => simp [generate_quiz, h1, h2, h3, h4, h5, h6, h7] at hok
    | ok call =>
      cases h8 : w.upsertRaises with
      | true => simp [generate_quiz, h1, h2, h3, h4, h5, h6, h7, h8] at hok
      | false =>
        simp only [generate_quiz, h1, h2, h3, h4, h5, h6, h7, h8] at hok
        have hq : quiz0 = quiz := by
          simpa using hok
        constructor
        · simp [generate_quiz, h1, h2, h3, h4, h5, h6, h7, h8]
        · exact ⟨memories, rfl, hq ▸ h4⟩
  · intro memories collection e h1 h2 h3 h4
    refine ⟨?_, ?_, ?_⟩
    · simp [generate_quiz, h1, h2, h3, h4]
    · simp only [generate_quiz, h1, h2, h3, h4]
      decide
    · simp only [generate_quiz, h1, h2, h3, h4]
      decide

/-- Concrete configuration for the C2 witness scenario: all credentials set,
no shared secret. -/
def cfgC2 : Config := ⟨"mk", "ok", "host", "quizzes", ""⟩

/-- Concrete request for the C2 witness scenario (the end-to-end scenario of
the spec). -/
def payloadC2 : QuizGenerateRequest :=
  ⟨"c1", "Backend Engineer", ["Go", "SQL"], "medium", 5⟩

/-- Concrete world for the C2 witness scenario: memory search succeeds with
one memory, the collection resolves, the similarity query returns no
documents, and the completion service answers HTTP 500 with body "boom". -/
def worldC2 : World :=
  ⟨.responded 200 "" (.jsonList [⟨some "prefers practical coding tasks", none⟩]),
   false, .returns (some [some []]), .responded 500 "boom" none,
   .responded 200 "", false, 111, fun _ => none, fun _ => ""⟩

/-- Witness for C2 at the concrete failure scenario: the request surfaces the
502 carrying the upstream body, and neither the summary append nor the quiz
upsert step is initiated. -/
theorem C2_pipeline_witness :
    (generate_quiz cfgC2 payloadC2 none worldC2).2 =
      .error (.httpExc ⟨502, "OpenRouter failed: " ++ "boom"⟩) ∧
    Step.summaryAppend ∉ (generate_quiz cfgC2 payloadC2 none worldC2).1 ∧
    Step.quizUpsert ∉ (generate_quiz cfgC2 payloadC2 none worldC2).1 :=
  (C2_pipeline cfgC2 payloadC2 none worldC2).2.2
    ["prefers practical coding tasks"] ⟨"quizzes"⟩
    (.httpExc ⟨502, "OpenRouter failed: " ++ "boom"⟩) rfl rfl rfl rfl

end QuizAgent
